import Mathlib

/-!
Shallow embedding of the identity core of the metagate server
(`src/modules/user/core/entity.py`, `service.py`,
`src/modules/user/infrastructure/repository/repository.py`,
`src/modules/user/core/command.py`, `value.py`).

Conventions of the embedding:
- `datetime` values are modelled as `Nat` seconds; `datetime.utcnow()` is an
  explicit `now : Nat` argument threaded into each service operation.
- `str(uuid.uuid4())` is nondeterministic in Python, so freshly generated ids
  and tokens are explicit arguments of the operations that generate them.
- The passlib `CryptContext` (an external library) is modelled abstractly by an
  injective encoding `hashPassword` with `verifyPassword p h = (hashPassword p == h)`.
- `jose.jwt.encode` (external library) is modelled abstractly as a string built
  from the subject claim and the expiry; the service constructor defaults
  (30 access minutes, 7 refresh days) are used as constants.
- A `Session` over the `users` table is a `List User`; SQLAlchemy
  `scalar_one_or_none` returns the unique row matching the predicate, `none`
  when there is no match, and raises `MultipleResultsFound` otherwise.
- Python `raise ValueError(...)` / `raise TypeError(...)` are modelled with
  `Except PyErr`; Python truthiness tests on strings (`if ip_address:`,
  `if not user.password_hash:`) treat the empty string like `None`.
- The audit columns `created_at` / `updated_at` are maintained by database
  column defaults (`func.now()` / `onupdate`), not by the code under study,
  and are omitted from the record.
-/

namespace Metagate

/-- UserRole from `value.py`. -/
inductive UserRole where
  | USER
  | ADMIN
  | MODERATOR
deriving DecidableEq, Repr

/-- UserStatus from `value.py`. -/
inductive UserStatus where
  | ACTIVE
  | INACTIVE
  | SUSPENDED
  | PENDING
  | DELETED
deriving DecidableEq, Repr

/-- AuthProvider from `value.py`. -/
inductive AuthProvider where
  | EMAIL
  | KAKAO
  | GOOGLE
  | NAVER
  | GITHUB
deriving DecidableEq, Repr

/-- Python exceptions surfaced by the service layer. -/
inductive PyErr where
  | valueError (msg : String)
  | typeError (msg : String)
  | multipleResultsFound
deriving DecidableEq, Repr

/-- The `users` row / `User` entity from `entity.py` (audit columns
`created_at` / `updated_at`, which are set by database column defaults,
are omitted; all other mapped columns are present). -/
structure User where
  id : String
  email : String
  username : String
  password_hash : Option String := none
  first_name : Option String := none
  last_name : Option String := none
  nickname : Option String := none
  phone : Option String := none
  avatar_url : Option String := none
  bio : Option String := none
  auth_provider : AuthProvider := .EMAIL
  auth_provider_id : Option String := none
  email_verified : Bool := false
  email_verification_token : Option String := none
  email_verification_expires : Option Nat := none
  user_role : UserRole := .USER
  user_status : UserStatus := .PENDING
  is_active : Bool := true
  last_login_at : Option Nat := none
  last_login_ip : Option String := none
  deleted_at : Option Nat := none
deriving DecidableEq, Repr

namespace User

/-- The keyword parameters accepted by the classmethod `User.create`
(`entity.py` lines 51-68), in declaration order. -/
def createKeywordParams : List String :=
  ["id", "email", "username", "password_hash", "first_name", "last_name",
   "nickname", "phone", "avatar_url", "bio", "auth_provider",
   "auth_provider_id", "user_role", "user_status"]

/-- Factory classmethod `User.create` (`entity.py`): mapped columns that are
not passed keep their column defaults. -/
def create (id email username : String)
    (password_hash : Option String := none)
    (first_name : Option String := none)
    (last_name : Option String := none)
    (nickname : Option String := none)
    (phone : Option String := none)
    (avatar_url : Option String := none)
    (bio : Option String := none)
    (auth_provider : AuthProvider := .EMAIL)
    (auth_provider_id : Option String := none)
    (user_role : UserRole := .USER)
    (user_status : UserStatus := .PENDING) : User :=
  { id := id
    email := email
    username := username
    password_hash := password_hash
    first_name := first_name
    last_name := last_name
    nickname := nickname
    phone := phone
    avatar_url := avatar_url
    bio := bio
    auth_provider := auth_provider
    auth_provider_id := auth_provider_id
    user_role := user_role
    user_status := user_status }

/-- `User.update_password`. -/
def update_password (u : User) (password_hash : String) : User :=
  { u with password_hash := some password_hash }

/-- `User.verify_email` (`entity.py` lines 129-135). -/
def verify_email (u : User) : User :=
  let u := { u with
    email_verified := true
    email_verification_token := none
    email_verification_expires := none }
  if u.user_status = .PENDING then { u with user_status := .ACTIVE } else u

/-- `User.set_email_verification_token`. -/
def set_email_verification_token (u : User) (token : String) (expires : Nat) : User :=
  { u with
    email_verification_token := some token
    email_verification_expires := some expires }

/-- `User.update_last_login` (`entity.py` lines 142-146); the
`if ip_address:` truthiness test skips `None` and the empty string. -/
def update_last_login (u : User) (now : Nat) (ip_address : Option String) : User :=
  let u := { u with last_login_at := some now }
  match ip_address with
  | some ip => if ip = "" then u else { u with last_login_ip := some ip }
  | none => u

/-- `User.activate`. -/
def activate (u : User) : User :=
  { u with user_status := .ACTIVE, is_active := true }

/-- `User.deactivate`. -/
def deactivate (u : User) : User :=
  { u with user_status := .INACTIVE, is_active := false }

/-- `User.suspend`. -/
def suspend (u : User) : User :=
  { u with user_status := .SUSPENDED, is_active := false }

/-- `User.delete` (soft delete; `datetime.utcnow()` is the `now` argument). -/
def delete (u : User) (now : Nat) : User :=
  { u with user_status := .DELETED, is_active := false, deleted_at := some now }

/-- `User.promote_to_admin`. -/
def promote_to_admin (u : User) : User :=
  { u with user_role := .ADMIN }

/-- `User.demote_to_user`. -/
def demote_to_user (u : User) : User :=
  { u with user_role := .USER }

end User

/-- A session over the `users` table. -/
abbrev Store := List User

/-- SQLAlchemy `scalar_one_or_none`: the unique row matching the predicate,
`none` when absent, `MultipleResultsFound` when more than one row matches. -/
def scalarOneOrNone (p : User → Bool) (s : Store) : Except PyErr (Option User) :=
  match s.filter p with
  | [] => .ok none
  | [u] => .ok (some u)
  | _ => .error .multipleResultsFound

/-- `SQLAlchemyUserRepository.save`: add-and-commit; an entity with an id
already present replaces that row, a new entity is appended. -/
def save (s : Store) (u : User) : Store :=
  if s.any (fun v => decide (v.id = u.id)) then
    s.map (fun v => if v.id = u.id then u else v)
  else
    s ++ [u]

/-- `SQLAlchemyUserRepository.find_by_id`. -/
def find_by_id (s : Store) (user_id : String) : Except PyErr (Option User) :=
  scalarOneOrNone (fun u => decide (u.id = user_id)) s

/-- `SQLAlchemyUserRepository.find_by_email`. -/
def find_by_email (s : Store) (email : String) : Except PyErr (Option User) :=
  scalarOneOrNone (fun u => decide (u.email = email)) s

/-- `SQLAlchemyUserRepository.find_by_auth_provider_id`. -/
def find_by_auth_provider_id (s : Store) (provider : AuthProvider) (provider_id : String) :
    Except PyErr (Option User) :=
  scalarOneOrNone
    (fun u => decide (u.auth_provider = provider ∧ u.auth_provider_id = some provider_id)) s

/-- `SQLAlchemyUserRepository.find_by_email_verification_token`. -/
def find_by_email_verification_token (s : Store) (token : String) :
    Except PyErr (Option User) :=
  scalarOneOrNone (fun u => decide (u.email_verification_token = some token)) s

/-- `SQLAlchemyUserRepository.exists_by_email` (`repository.py` lines 87-91):
matches every row holding the email, with no `deleted_at` filter. -/
def exists_by_email (s : Store) (email : String) : Bool :=
  s.any (fun u => decide (u.email = email))

/-- `SQLAlchemyUserRepository.exists_by_username` (`repository.py` lines
93-97): matches every row holding the username, with no `deleted_at`
filter. -/
def exists_by_username (s : Store) (username : String) : Bool :=
  s.any (fun u => decide (u.username = username))

/-- `SQLAlchemyUserRepository.delete` (hard-delete entry point; the
implementation again performs a soft delete through `User.delete`). -/
def repository_delete (s : Store) (now : Nat) (user_id : String) :
    Except PyErr (Bool × Store) := do
  let u? ← find_by_id s user_id
  match u? with
  | some u => .ok (true, save s (u.delete now))
  | none => .ok (false, s)

/-! Commands (`command.py`); only the fields the embedded operations read. -/

/-- `CreateUserCommand`, with its dataclass defaults. -/
structure CreateUserCommand where
  email : String
  username : String
  password : Option String := none
  first_name : Option String := none
  last_name : Option String := none
  nickname : Option String := none
  phone : Option String := none
  avatar_url : Option String := none
  bio : Option String := none
  auth_provider : AuthProvider := .EMAIL
  auth_provider_id : Option String := none
  user_role : UserRole := .USER
  user_status : UserStatus := .PENDING
deriving DecidableEq, Repr

/-- `LoginCommand`. -/
structure LoginCommand where
  email : String
  password : String
  ip_address : Option String := none
deriving DecidableEq, Repr

/-- `OAuthLoginCommand`. -/
structure OAuthLoginCommand where
  provider : AuthProvider
  provider_id : String
  email : String
  username : String
  first_name : Option String := none
  last_name : Option String := none
  avatar_url : Option String := none
  ip_address : Option String := none
deriving DecidableEq, Repr

/-- `ResetPasswordCommand`. -/
structure ResetPasswordCommand where
  email : String
deriving DecidableEq, Repr

/-- `ConfirmPasswordResetCommand`. -/
structure ConfirmPasswordResetCommand where
  token : String
  new_password : String
deriving DecidableEq, Repr

/-- `VerifyEmailCommand`. -/
structure VerifyEmailCommand where
  token : String
deriving DecidableEq, Repr

/-- `ActivateUserCommand`. -/
structure ActivateUserCommand where
  user_id : String
deriving DecidableEq, Repr

/-- `DeactivateUserCommand`. -/
structure DeactivateUserCommand where
  user_id : String
deriving DecidableEq, Repr

/-- `SuspendUserCommand`. -/
structure SuspendUserCommand where
  user_id : String
  reason : Option String := none
deriving DecidableEq, Repr

/-- `DeleteUserCommand`. -/
structure DeleteUserCommand where
  user_id : String
  hard_delete : Bool := false
deriving DecidableEq, Repr

/-- `PromoteToAdminCommand`. -/
structure PromoteToAdminCommand where
  user_id : String
deriving DecidableEq, Repr

/-- `DemoteToUserCommand`. -/
structure DemoteToUserCommand where
  user_id : String
deriving DecidableEq, Repr

/-! Responses (`query.py`); only the fields the embedded operations write. -/

/-- `UserRegistrationResponse`. -/
structure UserRegistrationResponse where
  user_id : String
  email : String
  username : String
deriving DecidableEq, Repr

/-- `UserAuthResponse`. -/
structure UserAuthResponse where
  id : String
  email : String
  username : String
  user_role : UserRole
  user_status : UserStatus
  is_active : Bool
  email_verified : Bool
  auth_provider : AuthProvider
  access_token : String
  refresh_token : String
deriving DecidableEq, Repr

/-- `UserLoginResponse`. -/
structure UserLoginResponse where
  user : UserAuthResponse
deriving DecidableEq, Repr

/-- `OAuthLoginResponse`. -/
structure OAuthLoginResponse where
  user : UserAuthResponse
  is_new_user : Bool
  message : String
deriving DecidableEq, Repr

/-- `PasswordResetResponse`. -/
structure PasswordResetResponse where
  email : String
deriving DecidableEq, Repr

/-- `PasswordResetConfirmResponse`. -/
structure PasswordResetConfirmResponse where
  success : Bool
  message : String
deriving DecidableEq, Repr

/-- `EmailVerificationResponse`. -/
structure EmailVerificationResponse where
  verified : Bool
  message : String
deriving DecidableEq, Repr

/-- `UserActivationResponse`. -/
structure UserActivationResponse where
  user_id : String
deriving DecidableEq, Repr

/-- `UserDeactivationResponse`. -/
structure UserDeactivationResponse where
  user_id : String
deriving DecidableEq, Repr

/-- `UserSuspensionResponse`. -/
structure UserSuspensionResponse where
  user_id : String
  reason : Option String
deriving DecidableEq, Repr

/-- `UserDeleteResponse`. -/
structure UserDeleteResponse where
  user_id : String
deriving DecidableEq, Repr

/-- `UserPromotionResponse`. -/
structure UserPromotionResponse where
  user_id : String
  new_role : UserRole
deriving DecidableEq, Repr

/-- `UserDemotionResponse`. -/
structure UserDemotionResponse where
  user_id : String
  new_role : UserRole
deriving DecidableEq, Repr

/-! The `UserService` (`service.py`). The passlib and jose collaborators are
modelled abstractly; JWT lifetimes use the constructor defaults. -/

/-- Abstract model of `CryptContext.hash` (bcrypt): an injective encoding of
the plaintext. -/
def hashPassword (plain : String) : String :=
  "$2b$12$" ++ plain

/-- Abstract model of `CryptContext.verify`: a password verifies exactly
against its own hash. -/
def verifyPassword (plain hashed : String) : Bool :=
  hashPassword plain == hashed

/-- `jwt_access_token_expire_minutes` constructor default. -/
def jwtAccessExpireMinutes : Nat := 30

/-- `jwt_refresh_token_expire_days` constructor default. -/
def jwtRefreshExpireDays : Nat := 7

/-- Abstract model of `UserService._create_access_token` over claims
`sub` and `exp = now + 30 minutes`. -/
def create_access_token (sub : String) (now : Nat) : String :=
  "jwt.access." ++ sub ++ "." ++ toString (now + jwtAccessExpireMinutes * 60)

/-- Abstract model of `UserService._create_refresh_token` over claims
`sub` and `exp = now + 7 days`. -/
def create_refresh_token (sub : String) (now : Nat) : String :=
  "jwt.refresh." ++ sub ++ "." ++ toString (now + jwtRefreshExpireDays * 86400)

/-- `UserService.create_user` (`service.py` lines 143-192). `fresh_id` and
`fresh_token` stand for the two `str(uuid.uuid4())` calls; the Python
truthiness tests `if command.password:` and `if email_verification_token:`
skip `None` and the empty string. -/
def create_user (s : Store) (now : Nat) (fresh_id fresh_token : String)
    (cmd : CreateUserCommand) : Except PyErr (UserRegistrationResponse × Store) :=
  if exists_by_email s cmd.email then
    .error (.valueError "이미 존재하는 이메일입니다.")
  else if exists_by_username s cmd.username then
    .error (.valueError "이미 존재하는 사용자명입니다.")
  else
    let password_hash : Option String :=
      match cmd.password with
      | some p => if p = "" then none else some (hashPassword p)
      | none => none
    let verification : Option (String × Nat) :=
      if cmd.auth_provider = .EMAIL then some (fresh_token, now + 24 * 3600) else none
    let user := User.create fresh_id cmd.email cmd.username password_hash
      cmd.first_name cmd.last_name cmd.nickname cmd.phone cmd.avatar_url cmd.bio
      cmd.auth_provider cmd.auth_provider_id cmd.user_role cmd.user_status
    let user :=
      match verification with
      | some (t, e) => if t = "" then user else user.set_email_verification_token t e
      | none => user
    let saved := save s user
    .ok ({ user_id := user.id, email := user.email, username := user.username }, saved)

/-- `UserService.login` (`service.py` lines 300-336). The account gate is the
`is_active` flag (`if not user.is_active:`), and the `if not
user.password_hash:` truthiness test treats an empty hash like `None`. -/
def login (s : Store) (now : Nat) (cmd : LoginCommand) :
    Except PyErr (UserLoginResponse × Store) := do
  let u? ← find_by_email s cmd.email
  match u? with
  | none => .error (.valueError "이메일 또는 비밀번호가 올바르지 않습니다.")
  | some user =>
    match user.password_hash with
    | none => .error (.valueError "OAuth 계정입니다. 소셜 로그인을 사용해주세요.")
    | some hash =>
      if hash = "" then
        .error (.valueError "OAuth 계정입니다. 소셜 로그인을 사용해주세요.")
      else if !verifyPassword cmd.password hash then
        .error (.valueError "이메일 또는 비밀번호가 올바르지 않습니다.")
      else if !user.is_active then
        .error (.valueError "비활성화된 계정입니다.")
      else
        let user := user.update_last_login now cmd.ip_address
        let s := save s user
        .ok ({ user :=
          { id := user.id
            email := user.email
            username := user.username
            user_role := user.user_role
            user_status := user.user_status
            is_active := user.is_active
            email_verified := user.email_verified
            auth_provider := user.auth_provider
            access_token := create_access_token user.id now
            refresh_token := create_refresh_token user.id now } }, s)

/-- The keyword arguments the `User.create` call inside
`UserService.oauth_login` passes (`service.py` lines 347-359). -/
def oauthCreateCallKwargs : List String :=
  ["id", "email", "username", "first_name", "last_name", "avatar_url",
   "auth_provider", "auth_provider_id", "user_role", "user_status",
   "email_verified"]

/-- `UserService.oauth_login` (`service.py` lines 338-383). The new-user
branch calls `User.create` with the keyword arguments
`oauthCreateCallKwargs`; a keyword the classmethod does not declare makes
the Python call raise `TypeError` before any account is built. -/
def oauth_login (s : Store) (now : Nat) (fresh_id : String)
    (cmd : OAuthLoginCommand) : Except PyErr (OAuthLoginResponse × Store) := do
  let u? ← find_by_auth_provider_id s cmd.provider cmd.provider_id
  let finish : User → Bool → Except PyErr (OAuthLoginResponse × Store) :=
    fun user is_new_user =>
      let user := user.update_last_login now cmd.ip_address
      let s := save s user
      let auth : UserAuthResponse :=
        { id := user.id
          email := user.email
          username := user.username
          user_role := user.user_role
          user_status := user.user_status
          is_active := user.is_active
          email_verified := user.email_verified
          auth_provider := user.auth_provider
          access_token := create_access_token user.id now
          refresh_token := create_refresh_token user.id now }
      .ok ({ user := auth
             is_new_user := is_new_user
             message :=
               if is_new_user then "새 계정이 생성되었습니다." else "로그인 성공" }, s)
  match u? with
  | none =>
    if oauthCreateCallKwargs.all (fun k => User.createKeywordParams.contains k) then
      finish (User.create fresh_id cmd.email cmd.username none cmd.first_name
        cmd.last_name none none cmd.avatar_url none cmd.provider
        (some cmd.provider_id) .USER .ACTIVE) true
    else
      .error (.typeError "create() got an unexpected keyword argument email_verified")
  | some user => finish user false

/-- `UserService.reset_password` (`service.py` lines 245-260): a generic
success when the email matches no account; a `ValueError` when the account
is not an EMAIL-provider account; otherwise a reset token is generated but
(per the source TODO) never persisted, and a generic success is returned. -/
def reset_password (s : Store) (cmd : ResetPasswordCommand) :
    Except PyErr (PasswordResetResponse × Store) := do
  let u? ← find_by_email s cmd.email
  match u? with
  | none => .ok ({ email := cmd.email }, s)
  | some user =>
    if user.auth_provider ≠ .EMAIL then
      .error (.valueError "OAuth 사용자는 비밀번호 재설정을 사용할 수 없습니다.")
    else
      .ok ({ email := cmd.email }, s)

/-- `UserService.confirm_password_reset` (`service.py` lines 262-265): the
body is a TODO placeholder that unconditionally reports success and touches
no state. -/
def confirm_password_reset (s : Store) (_cmd : ConfirmPasswordResetCommand) :
    Except PyErr (PasswordResetConfirmResponse × Store) :=
  .ok ({ success := true, message := "비밀번호가 재설정되었습니다." }, s)

/-- `UserService.verify_email` (`service.py` lines 267-279). -/
def service_verify_email (s : Store) (now : Nat) (cmd : VerifyEmailCommand) :
    Except PyErr (EmailVerificationResponse × Store) := do
  let u? ← find_by_email_verification_token s cmd.token
  match u? with
  | none => .ok ({ verified := false, message := "유효하지 않은 토큰입니다." }, s)
  | some user =>
    match user.email_verification_expires with
    | some expires =>
      if expires < now then
        .ok ({ verified := false, message := "만료된 토큰입니다." }, s)
      else
        .ok ({ verified := true, message := "이메일 인증이 완료되었습니다." },
          save s user.verify_email)
    | none =>
      .ok ({ verified := true, message := "이메일 인증이 완료되었습니다." },
        save s user.verify_email)

/-- `UserService.activate_user` (`service.py` lines 390-399): no status
guard, `User.activate` is applied unconditionally to any found account. -/
def activate_user (s : Store) (cmd : ActivateUserCommand) :
    Except PyErr (UserActivationResponse × Store) := do
  let u? ← find_by_id s cmd.user_id
  match u? with
  | none => .error (.valueError "사용자를 찾을 수 없습니다.")
  | some user => .ok ({ user_id := user.id }, save s user.activate)

/-- `UserService.deactivate_user`: no status guard. -/
def deactivate_user (s : Store) (cmd : DeactivateUserCommand) :
    Except PyErr (UserDeactivationResponse × Store) := do
  let u? ← find_by_id s cmd.user_id
  match u? with
  | none => .error (.valueError "사용자를 찾을 수 없습니다.")
  | some user => .ok ({ user_id := user.id }, save s user.deactivate)

/-- `UserService.suspend_user`: no status guard. -/
def suspend_user (s : Store) (cmd : SuspendUserCommand) :
    Except PyErr (UserSuspensionResponse × Store) := do
  let u? ← find_by_id s cmd.user_id
  match u? with
  | none => .error (.valueError "사용자를 찾을 수 없습니다.")
  | some user => .ok ({ user_id := user.id, reason := cmd.reason }, save s user.suspend)

/-- `UserService.delete_user` (`service.py` lines 423-438): no status guard
on either branch. -/
def delete_user (s : Store) (now : Nat) (cmd : DeleteUserCommand) :
    Except PyErr (UserDeleteResponse × Store) := do
  if cmd.hard_delete then
    let r ← repository_delete s now cmd.user_id
    if r.1 then .ok ({ user_id := cmd.user_id }, r.2)
    else .error (.valueError "사용자를 찾을 수 없습니다.")
  else
    let u? ← find_by_id s cmd.user_id
    match u? with
    | none => .error (.valueError "사용자를 찾을 수 없습니다.")
    | some user => .ok ({ user_id := cmd.user_id }, save s (user.delete now))

/-- `UserService.promote_to_admin`: no status guard. -/
def promote_to_admin (s : Store) (cmd : PromoteToAdminCommand) :
    Except PyErr (UserPromotionResponse × Store) := do
  let u? ← find_by_id s cmd.user_id
  match u? with
  | none => .error (.valueError "사용자를 찾을 수 없습니다.")
  | some user =>
    let user := user.promote_to_admin
    .ok ({ user_id := user.id, new_role := user.user_role }, save s user)

/-- `UserService.demote_to_user`: no status guard. -/
def demote_to_user (s : Store) (cmd : DemoteToUserCommand) :
    Except PyErr (UserDemotionResponse × Store) := do
  let u? ← find_by_id s cmd.user_id
  match u? with
  | none => .error (.valueError "사용자를 찾을 수 없습니다.")
  | some user =>
    let user := user.demote_to_user
    .ok ({ user_id := user.id, new_role := user.user_role }, save s user)

/-- Whether an `Except` result is a success. -/
def exOk {ε α : Type} : Except ε α → Bool
  | .ok _ => true
  | .error _ => false

/-! Concrete accounts and commands used by counterexamples and witnesses. -/

/-- A freshly registered password account: status PENDING, `is_active` true
(the column defaults of `User.create`). -/
def aliceP : User :=
  User.create "u1" "a@x.com" "alice" (some (hashPassword "password123"))

/-- The same account after `User.suspend`. -/
def aliceSuspended : User := aliceP.suspend

/-- The same account after `User.delete` (soft delete) at time 50. -/
def aliceDeleted : User := aliceP.delete 50

/-- The same account as an external GOOGLE account. -/
def aliceGoogle : User := { aliceP with auth_provider := .GOOGLE }

/-- The same account as an external KAKAO account with provider id k1. -/
def aliceKakao : User :=
  { aliceP with auth_provider := .KAKAO, auth_provider_id := some "k1" }

/-- The PENDING account holding verification token t1 expiring at time 200. -/
def aliceToken : User :=
  { aliceP with
    email_verification_token := some "t1"
    email_verification_expires := some 200 }

/-- An external-identity login command for a KAKAO identity. -/
def kakaoLoginCmd : OAuthLoginCommand :=
  { provider := .KAKAO, provider_id := "k1", email := "k@x.com", username := "kuser" }

/-- A registration command carrying a password of length 11 but a KAKAO
provider. -/
def kakaoRegisterCmd : CreateUserCommand :=
  { email := "k@x.com", username := "kuser", password := some "password123",
    auth_provider := .KAKAO }

/-! Shared lemmas about `scalarOneOrNone` and `save`. -/

/-- A singleton filter result is a member satisfying the predicate. -/
theorem mem_of_filter_eq_single {p : User → Bool} {s : Store} {u : User}
    (h : s.filter p = [u]) : u ∈ s ∧ p u = true := by
  have hu : u ∈ s.filter p := by rw [h]; exact List.mem_singleton_self u
  exact List.mem_filter.mp hu

/-- A singleton filter result is the only member satisfying the predicate. -/
theorem eq_of_filter_eq_single {p : User → Bool} {s : Store} {u v : User}
    (h : s.filter p = [u]) (hv : v ∈ s) (hp : p v = true) : v = u := by
  have : v ∈ s.filter p := List.mem_filter.mpr ⟨hv, hp⟩
  rw [h] at this
  exact List.mem_singleton.mp this

/-- With a unique row matching the predicate, `scalarOneOrNone` returns it. -/
theorem scalarOneOrNone_of_filter_eq_single {p : User → Bool} {s : Store} {u : User}
    (h : s.filter p = [u]) : scalarOneOrNone p s = .ok (some u) := by
  unfold scalarOneOrNone
  rw [h]

/-- With no row matching the predicate, `scalarOneOrNone` returns `none`. -/
theorem scalarOneOrNone_of_filter_eq_nil {p : User → Bool} {s : Store}
    (h : s.filter p = []) : scalarOneOrNone p s = .ok none := by
  unfold scalarOneOrNone
  rw [h]

/-- Saving an updated copy (same id) of the unique token holder leaves no row
holding the token, provided the update cleared it. -/
theorem filter_save_eq_nil {s : Store} {t : String} {u u' : User}
    (huniq : s.filter (fun v => decide (v.email_verification_token = some t)) = [u])
    (hid : u'.id = u.id)
    (htok : u'.email_verification_token ≠ some t) :
    (save s u').filter (fun v => decide (v.email_verification_token = some t)) = [] := by
  obtain ⟨hmem, hpu⟩ := mem_of_filter_eq_single huniq
  have hany : s.any (fun v => decide (v.id = u'.id)) = true := by
    refine List.any_eq_true.mpr ⟨u, hmem, ?_⟩
    simp [hid]
  rw [save, if_pos hany]
  refine List.filter_eq_nil_iff.mpr ?_
  intro w hw
  obtain ⟨v, hv, hvw⟩ := List.mem_map.mp hw
  by_cases hvid : v.id = u'.id
  · rw [if_pos hvid] at hvw
    subst hvw
    simpa using htok
  · rw [if_neg hvid] at hvw
    subst hvw
    intro hvt
    have : v = u := eq_of_filter_eq_single huniq hv (by simpa using hvt)
    exact hvid (by rw [this, hid])

/-! Field lemmas for `User.verify_email`. -/

/-- `User.verify_email` never changes the id. -/
theorem verify_email_id (u : User) : u.verify_email.id = u.id := by
  by_cases h : u.user_status = .PENDING <;> simp [User.verify_email, h]

/-- `User.verify_email` always clears the token. -/
theorem verify_email_clears_token (u : User) :
    u.verify_email.email_verification_token = none := by
  by_cases h : u.user_status = .PENDING <;> simp [User.verify_email, h]

/-- `User.verify_email` always clears the token expiry. -/
theorem verify_email_clears_expires (u : User) :
    u.verify_email.email_verification_expires = none := by
  by_cases h : u.user_status = .PENDING <;> simp [User.verify_email, h]

/-- `User.verify_email` always sets `email_verified`. -/
theorem verify_email_sets_verified (u : User) :
    u.verify_email.email_verified = true := by
  by_cases h : u.user_status = .PENDING <;> simp [User.verify_email, h]

/-- On a PENDING account, `User.verify_email` promotes the status to ACTIVE. -/
theorem verify_email_status_of_pending (u : User) (h : u.user_status = .PENDING) :
    u.verify_email.user_status = .ACTIVE := by
  simp [User.verify_email, h]

/-- On a non-PENDING account, `User.verify_email` is exactly the update of
the three verification fields. -/
theorem verify_email_eq_of_not_pending (u : User) (h : u.user_status ≠ .PENDING) :
    u.verify_email = { u with
      email_verified := true
      email_verification_token := none
      email_verification_expires := none } := by
  simp [User.verify_email, h]

/-- Bind on a successful `Except` computation applies the continuation. -/
theorem exBind_ok {ε α β : Type} (a : α) (f : α → Except ε β) :
    (Except.ok a >>= f : Except ε β) = f a := rfl

/-- `UserService.verify_email` on a stored, unexpired token: success and the
consuming entity update is saved. -/
theorem service_verify_email_valid_token {s : Store} {now : Nat} {t : String} {u : User}
    (huniq : s.filter (fun v => decide (v.email_verification_token = some t)) = [u])
    (hexp : ∀ e, u.email_verification_expires = some e → ¬ e < now) :
    service_verify_email s now { token := t } =
      .ok ({ verified := true, message := "이메일 인증이 완료되었습니다." },
        save s u.verify_email) := by
  have hfind : find_by_email_verification_token s t = .ok (some u) :=
    scalarOneOrNone_of_filter_eq_single huniq
  cases hu : u.email_verification_expires with
  | none => simp [service_verify_email, hfind, hu, exBind_ok]
  | some e =>
    have hne : ¬ e < now := hexp e hu
    simp [service_verify_email, hfind, hu, hne, exBind_ok]

/-- C8: `verifyEmail` on the unique holder of a stored, unexpired token takes
a PENDING account to ACTIVE, sets `email_verified`, clears the token and its
expiry, and a second `verifyEmail` with the same token value afterwards fails
as an invalid token with no further change — the token is never consumed
twice. -/
theorem c8_verify_email_single_use
    (s : Store) (now : Nat) (t : String) (u : User)
    (huniq : s.filter (fun v => decide (v.email_verification_token = some t)) = [u])
    (hpend : u.user_status = .PENDING)
    (hexp : ∀ e, u.email_verification_expires = some e → ¬ e < now) :
    service_verify_email s now { token := t } =
      .ok ({ verified := true, message := "이메일 인증이 완료되었습니다." },
        save s u.verify_email) ∧
    u.verify_email.user_status = .ACTIVE ∧
    u.verify_email.email_verified = true ∧
    u.verify_email.email_verification_token = none ∧
    u.verify_email.email_verification_expires = none ∧
    service_verify_email (save s u.verify_email) now { token := t } =
      .ok ({ verified := false, message := "유효하지 않은 토큰입니다." },
        save s u.verify_email) := by
  refine ⟨service_verify_email_valid_token huniq hexp,
    verify_email_status_of_pending u hpend, verify_email_sets_verified u,
    verify_email_clears_token u, verify_email_clears_expires u, ?_⟩
  have hnil := filter_save_eq_nil huniq (verify_email_id u)
    (by rw [verify_email_clears_token u]; simp)
  have hfind2 : find_by_email_verification_token (save s u.verify_email) t = .ok none :=
    scalarOneOrNone_of_filter_eq_nil hnil
  simp [service_verify_email, hfind2, exBind_ok]

/-- C8 witness: the concrete PENDING account holding token t1 (expiry 200) at
time 100. -/
theorem c8_verify_email_single_use_witness :
    service_verify_email [aliceToken] 100 { token := "t1" } =
      .ok ({ verified := true, message := "이메일 인증이 완료되었습니다." },
        save [aliceToken] aliceToken.verify_email) ∧
    aliceToken.verify_email.user_status = .ACTIVE ∧
    aliceToken.verify_email.email_verified = true ∧
    aliceToken.verify_email.email_verification_token = none ∧
    aliceToken.verify_email.email_verification_expires = none ∧
    service_verify_email (save [aliceToken] aliceToken.verify_email) 100 { token := "t1" } =
      .ok ({ verified := false, message := "유효하지 않은 토큰입니다." },
        save [aliceToken] aliceToken.verify_email) :=
  c8_verify_email_single_use [aliceToken] 100 "t1" aliceToken (by decide) (by decide)
    (fun e he => by
      have h200 : (200 : Nat) = e := Option.some.inj he
      omega)

/-- C9: `verifyEmail` with a token whose stored expiry is strictly in the
past returns the expired-token failure and returns the store unchanged: the
error branch performs no mutation, so status and `email_verified` keep their
prior values. -/
theorem c9_verify_email_expired_no_mutation
    (s : Store) (now : Nat) (t : String) (u : User) (e : Nat)
    (huniq : s.filter (fun v => decide (v.email_verification_token = some t)) = [u])
    (hexp : u.email_verification_expires = some e)
    (hlt : e < now) :
    service_verify_email s now { token := t } =
      .ok ({ verified := false, message := "만료된 토큰입니다." }, s) := by
  have hfind : find_by_email_verification_token s t = .ok (some u) :=
    scalarOneOrNone_of_filter_eq_single huniq
  simp [service_verify_email, hfind, hexp, hlt, exBind_ok]

/-- C9 witness: the same token holder at time 300, past the stored expiry
200. -/
theorem c9_verify_email_expired_no_mutation_witness :
    service_verify_email [aliceToken] 300 { token := "t1" } =
      .ok ({ verified := false, message := "만료된 토큰입니다." }, [aliceToken]) :=
  c9_verify_email_expired_no_mutation [aliceToken] 300 "t1" aliceToken 200
    (by decide) (by decide) (by decide)

/-- C10: consuming a stored, unexpired token held by an account whose status
is not PENDING succeeds, sets `email_verified`, clears the token and expiry,
and leaves `user_status` unchanged; `User.verify_email` touches no other
field of the account. -/
theorem c10_verify_email_frame_on_non_pending
    (s : Store) (now : Nat) (t : String) (u : User)
    (huniq : s.filter (fun v => decide (v.email_verification_token = some t)) = [u])
    (hnp : u.user_status ≠ .PENDING)
    (hexp : ∀ e, u.email_verification_expires = some e → ¬ e < now) :
    service_verify_email s now { token := t } =
      .ok ({ verified := true, message := "이메일 인증이 완료되었습니다." },
        save s u.verify_email) ∧
    u.verify_email.email_verified = true ∧
    u.verify_email.email_verification_token = none ∧
    u.verify_email.email_verification_expires = none ∧
    u.verify_email.user_status = u.user_status ∧
    u.verify_email.id = u.id ∧
    u.verify_email.email = u.email ∧
    u.verify_email.username = u.username ∧
    u.verify_email.password_hash = u.password_hash ∧
    u.verify_email.first_name = u.first_name ∧
    u.verify_email.last_name = u.last_name ∧
    u.verify_email.nickname = u.nickname ∧
    u.verify_email.phone = u.phone ∧
    u.verify_email.avatar_url = u.avatar_url ∧
    u.verify_email.bio = u.bio ∧
    u.verify_email.auth_provider = u.auth_provider ∧
    u.verify_email.auth_provider_id = u.auth_provider_id ∧
    u.verify_email.user_role = u.user_role ∧
    u.verify_email.is_active = u.is_active ∧
    u.verify_email.last_login_at = u.last_login_at ∧
    u.verify_email.last_login_ip = u.last_login_ip ∧
    u.verify_email.deleted_at = u.deleted_at := by
  refine ⟨service_verify_email_valid_token huniq hexp, ?_⟩
  rw [verify_email_eq_of_not_pending u hnp]
  simp

/-- C10 witness: the token holder suspended before consumption; status stays
SUSPENDED and only the verification fields change. -/
theorem c10_verify_email_frame_on_non_pending_witness :
    service_verify_email [aliceToken.suspend] 100 { token := "t1" } =
      .ok ({ verified := true, message := "이메일 인증이 완료되었습니다." },
        save [aliceToken.suspend] aliceToken.suspend.verify_email) ∧
    aliceToken.suspend.verify_email.email_verified = true ∧
    aliceToken.suspend.verify_email.email_verification_token = none ∧
    aliceToken.suspend.verify_email.email_verification_expires = none ∧
    aliceToken.suspend.verify_email.user_status = aliceToken.suspend.user_status ∧
    aliceToken.suspend.verify_email.id = aliceToken.suspend.id ∧
    aliceToken.suspend.verify_email.email = aliceToken.suspend.email ∧
    aliceToken.suspend.verify_email.username = aliceToken.suspend.username ∧
    aliceToken.suspend.verify_email.password_hash = aliceToken.suspend.password_hash ∧
    aliceToken.suspend.verify_email.first_name = aliceToken.suspend.first_name ∧
    aliceToken.suspend.verify_email.last_name = aliceToken.suspend.last_name ∧
    aliceToken.suspend.verify_email.nickname = aliceToken.suspend.nickname ∧
    aliceToken.suspend.verify_email.phone = aliceToken.suspend.phone ∧
    aliceToken.suspend.verify_email.avatar_url = aliceToken.suspend.avatar_url ∧
    aliceToken.suspend.verify_email.bio = aliceToken.suspend.bio ∧
    aliceToken.suspend.verify_email.auth_provider = aliceToken.suspend.auth_provider ∧
    aliceToken.suspend.verify_email.auth_provider_id = aliceToken.suspend.auth_provider_id ∧
    aliceToken.suspend.verify_email.user_role = aliceToken.suspend.user_role ∧
    aliceToken.suspend.verify_email.is_active = aliceToken.suspend.is_active ∧
    aliceToken.suspend.verify_email.last_login_at = aliceToken.suspend.last_login_at ∧
    aliceToken.suspend.verify_email.last_login_ip = aliceToken.suspend.last_login_ip ∧
    aliceToken.suspend.verify_email.deleted_at = aliceToken.suspend.deleted_at :=
  c10_verify_email_frame_on_non_pending [aliceToken.suspend] 100 "t1" aliceToken.suspend
    (by decide) (by decide)
    (fun e he => by
      have h200 : (200 : Nat) = e := Option.some.inj he
      omega)

/-- C1 counterexample: a PENDING account (the state every password
registration starts in, with the `is_active` column default true) logs in
successfully with its correct password, contradicting the claim that login
succeeds only when the status is ACTIVE. -/
theorem c1_pending_account_logs_in :
    aliceP.user_status = .PENDING ∧
    exOk (login [aliceP] 100 { email := "a@x.com", password := "password123" }) = true := by
  constructor <;> rfl

/-- C1 (amended): with a matching account and a correct password, login is
gated by the `is_active` flag alone — it fails with the inactive-account
error (never the invalid-credentials error) when `is_active` is false, which
holds after suspend, deactivate and soft delete, and it succeeds whenever
`is_active` is true, regardless of status (in particular on a PENDING
account). -/
theorem c1_login_gated_by_is_active
    (s : Store) (now : Nat) (cmd : LoginCommand) (u : User) (hsh : String)
    (hfind : find_by_email s cmd.email = .ok (some u))
    (hhash : u.password_hash = some hsh)
    (hne : hsh ≠ "")
    (hpw : verifyPassword cmd.password hsh = true) :
    (u.is_active = false →
      login s now cmd = .error (.valueError "비활성화된 계정입니다.")) ∧
    (u.is_active = true → exOk (login s now cmd) = true) ∧
    (∀ v : User, v.suspend.is_active = false ∧ v.deactivate.is_active = false ∧
      ∀ t2 : Nat, (v.delete t2).is_active = false) := by
  refine ⟨?_, ?_, ?_⟩
  · intro hia
    simp [login, hfind, hhash, hne, hpw, hia, exBind_ok]
  · intro hia
    simp [login, hfind, hhash, hne, hpw, hia, exBind_ok, exOk]
  · intro v
    exact ⟨rfl, rfl, fun t2 => rfl⟩

/-- C1 witness: the suspended account with its correct password fails with
the inactive-account error. -/
theorem c1_login_gated_by_is_active_witness :
    login [aliceSuspended] 100 { email := "a@x.com", password := "password123" } =
      .error (.valueError "비활성화된 계정입니다.") :=
  (c1_login_gated_by_is_active [aliceSuspended] 100
    { email := "a@x.com", password := "password123" } aliceSuspended
    (hashPassword "password123") rfl rfl (by decide) (by decide)).1 rfl

/-- C2: on the first sighting of an external identity, the new-account branch
of `oauth_login` passes the keyword argument email_verified, which the
classmethod `User.create` does not declare, so the call raises `TypeError`
instead of creating an ACTIVE, verified account; the reuse branch (matching
pair) still works and reports `is_new_user = false`. -/
theorem c2_oauth_first_sighting_raises_type_error :
    oauth_login [] 100 "u9" kakaoLoginCmd =
      .error (.typeError "create() got an unexpected keyword argument email_verified") ∧
    ∃ r, oauth_login [aliceKakao] 100 "u9" kakaoLoginCmd = .ok r ∧
      r.1.is_new_user = false := by
  exact ⟨rfl, ⟨_, rfl, rfl⟩⟩

/-- C3 counterexample: `activate_user` on a soft-DELETED account does not
fail with any illegal-transition error; it succeeds and sets the status back
to ACTIVE with `is_active` true (while `deleted_at` stays set). -/
theorem c3_activate_revives_deleted_account :
    aliceDeleted.user_status = .DELETED ∧
    activate_user [aliceDeleted] { user_id := "u1" } =
      .ok ({ user_id := "u1" }, [aliceDeleted.activate]) ∧
    aliceDeleted.activate.user_status = .ACTIVE ∧
    aliceDeleted.activate.is_active = true ∧
    aliceDeleted.activate.deleted_at = some 50 := by
  refine ⟨rfl, rfl, rfl, rfl, rfl⟩

/-- C3 (amended): no lifecycle operation checks the current status — on a
found DELETED account, activate, deactivate, suspend, soft delete, promote
and demote all succeed and overwrite the fields unconditionally; in
particular activate returns a DELETED account to ACTIVE with `is_active`
true, and no operation raises an illegal-transition error (`deleted_at` is
left as it was by all of them except soft delete). -/
theorem c3_lifecycle_ops_unguarded_on_deleted
    (s : Store) (now : Nat) (id : String) (u : User)
    (hfind : find_by_id s id = .ok (some u))
    (hdel : u.user_status = .DELETED) :
    u.user_status = .DELETED ∧
    activate_user s { user_id := id } =
      .ok ({ user_id := u.id }, save s u.activate) ∧
    u.activate.user_status = .ACTIVE ∧
    u.activate.is_active = true ∧
    u.activate.deleted_at = u.deleted_at ∧
    deactivate_user s { user_id := id } =
      .ok ({ user_id := u.id }, save s u.deactivate) ∧
    suspend_user s { user_id := id } =
      .ok ({ user_id := u.id, reason := none }, save s u.suspend) ∧
    delete_user s now { user_id := id } =
      .ok ({ user_id := id }, save s (u.delete now)) ∧
    promote_to_admin s { user_id := id } =
      .ok ({ user_id := u.id, new_role := .ADMIN }, save s u.promote_to_admin) ∧
    demote_to_user s { user_id := id } =
      .ok ({ user_id := u.id, new_role := .USER }, save s u.demote_to_user) := by
  refine ⟨hdel, ?_, rfl, rfl, rfl, ?_, ?_, ?_, ?_, ?_⟩ <;>
    simp [activate_user, deactivate_user, suspend_user, delete_user,
      promote_to_admin, demote_to_user, hfind, exBind_ok,
      User.promote_to_admin, User.demote_to_user]

/-- C3 witness: the concrete DELETED account accepts every lifecycle
operation. -/
theorem c3_lifecycle_ops_unguarded_on_deleted_witness :
    aliceDeleted.user_status = .DELETED ∧
    activate_user [aliceDeleted] { user_id := "u1" } =
      .ok ({ user_id := aliceDeleted.id }, save [aliceDeleted] aliceDeleted.activate) ∧
    aliceDeleted.activate.user_status = .ACTIVE ∧
    aliceDeleted.activate.is_active = true ∧
    aliceDeleted.activate.deleted_at = aliceDeleted.deleted_at ∧
    deactivate_user [aliceDeleted] { user_id := "u1" } =
      .ok ({ user_id := aliceDeleted.id }, save [aliceDeleted] aliceDeleted.deactivate) ∧
    suspend_user [aliceDeleted] { user_id := "u1" } =
      .ok ({ user_id := aliceDeleted.id, reason := none },
        save [aliceDeleted] aliceDeleted.suspend) ∧
    delete_user [aliceDeleted] 70 { user_id := "u1" } =
      .ok ({ user_id := "u1" }, save [aliceDeleted] (aliceDeleted.delete 70)) ∧
    promote_to_admin [aliceDeleted] { user_id := "u1" } =
      .ok ({ user_id := aliceDeleted.id, new_role := .ADMIN },
        save [aliceDeleted] aliceDeleted.promote_to_admin) ∧
    demote_to_user [aliceDeleted] { user_id := "u1" } =
      .ok ({ user_id := aliceDeleted.id, new_role := .USER },
        save [aliceDeleted] aliceDeleted.demote_to_user) :=
  c3_lifecycle_ops_unguarded_on_deleted [aliceDeleted] 70 "u1" aliceDeleted rfl rfl

/-- C4 counterexample: the email and the username of a soft-deleted account
(`deleted_at` set) both still block a new registration with a Conflict
error. -/
theorem c4_soft_deleted_account_blocks_registration :
    aliceDeleted.deleted_at = some 50 ∧
    create_user [aliceDeleted] 0 "u2" "tok2" { email := "a@x.com", username := "bob" } =
      .error (.valueError "이미 존재하는 이메일입니다.") ∧
    create_user [aliceDeleted] 0 "u2" "tok2" { email := "b@x.com", username := "alice" } =
      .error (.valueError "이미 존재하는 사용자명입니다.") := by
  refine ⟨rfl, rfl, rfl⟩

/-- C4 (amended): register fails with the email Conflict exactly when any
stored account — soft-deleted or not — holds the requested email, with the
username Conflict when the email is free but any stored account holds the
username, and succeeds exactly when neither is held by any account: the
existence checks apply no `deleted_at` filter, so a soft-deleted account's
email or username does block re-registration. -/
theorem c4_register_conflict_ignores_deleted
    (s : Store) (now : Nat) (fid ftok : String) (cmd : CreateUserCommand) :
    (exOk (create_user s now fid ftok cmd) = true ↔
      exists_by_email s cmd.email = false ∧ exists_by_username s cmd.username = false) ∧
    (exists_by_email s cmd.email = true →
      create_user s now fid ftok cmd = .error (.valueError "이미 존재하는 이메일입니다.")) ∧
    (exists_by_email s cmd.email = false → exists_by_username s cmd.username = true →
      create_user s now fid ftok cmd = .error (.valueError "이미 존재하는 사용자명입니다.")) := by
  cases he : exists_by_email s cmd.email <;>
    cases hu : exists_by_username s cmd.username <;>
      simp [create_user, he, hu, exOk]

/-- C4 witness: on the store holding only the soft-deleted account, the iff
gives the email Conflict at the concrete registration command. -/
theorem c4_register_conflict_ignores_deleted_witness :
    create_user [aliceDeleted] 0 "u2" "tok2" { email := "a@x.com", username := "bob" } =
      .error (.valueError "이미 존재하는 이메일입니다.") :=
  (c4_register_conflict_ignores_deleted [aliceDeleted] 0 "u2" "tok2"
    { email := "a@x.com", username := "bob" }).2.1 rfl

/-- C5 counterexample: `requestPasswordReset` with the email of an
external-provider (GOOGLE) account raises a ValueError to the caller instead
of the generic success acknowledgment. -/
theorem c5_reset_password_errors_for_oauth_account :
    reset_password [aliceGoogle] { email := "a@x.com" } =
      .error (.valueError "OAuth 사용자는 비밀번호 재설정을 사용할 수 없습니다.") := by
  rfl

/-- C5 (amended): `requestPasswordReset` returns the generic success
acknowledgment (and leaves the store unchanged) when the email matches no
account or matches an EMAIL-provider account, but it raises a ValueError to
the caller when the email belongs to an external-provider (OAuth) account. -/
theorem c5_reset_password_generic_ack_unless_oauth
    (s : Store) (cmd : ResetPasswordCommand) :
    (find_by_email s cmd.email = .ok none →
      reset_password s cmd = .ok ({ email := cmd.email }, s)) ∧
    (∀ u, find_by_email s cmd.email = .ok (some u) → u.auth_provider = .EMAIL →
      reset_password s cmd = .ok ({ email := cmd.email }, s)) ∧
    (∀ u, find_by_email s cmd.email = .ok (some u) → u.auth_provider ≠ .EMAIL →
      reset_password s cmd =
        .error (.valueError "OAuth 사용자는 비밀번호 재설정을 사용할 수 없습니다.")) := by
  refine ⟨?_, ?_, ?_⟩
  · intro hfind
    simp [reset_password, hfind, exBind_ok]
  · intro u hfind hp
    simp [reset_password, hfind, hp, exBind_ok]
  · intro u hfind hp
    simp [reset_password, hfind, hp, exBind_ok]

/-- C5 witness: on the empty store (email unknown) the generic success
acknowledgment is returned. -/
theorem c5_reset_password_generic_ack_unless_oauth_witness :
    reset_password [] { email := "a@x.com" } = .ok ({ email := "a@x.com" }, []) :=
  (c5_reset_password_generic_ack_unless_oauth [] { email := "a@x.com" }).1 rfl

/-- C6: `confirmPasswordReset` is an unimplemented placeholder — for every
store and every command (any token, expired or unknown, any new password) it
returns the success response and the unchanged store, so it never fails with
a token error, never stores a new hash and never clears a token. -/
theorem c6_confirm_password_reset_is_stub
    (s : Store) (cmd : ConfirmPasswordResetCommand) :
    confirm_password_reset s cmd =
      .ok ({ success := true, message := "비밀번호가 재설정되었습니다." }, s) := rfl

/-- C7 counterexample: a registration command with a fresh email and
username, a KAKAO provider and an 11-character password succeeds, but the
created account carries no email-verification token at all (the token is
issued only for the EMAIL provider). -/
theorem c7_non_email_registration_has_no_token :
    kakaoRegisterCmd.password = some "password123" ∧
    8 ≤ "password123".length ∧
    kakaoRegisterCmd.user_status = .PENDING ∧
    (create_user [] 0 "u3" "tok3" kakaoRegisterCmd).map
      (fun r => r.2.map (fun u => (u.email_verification_token, u.email_verification_expires))) =
      .ok [(none, none)] := by
  refine ⟨rfl, by decide, rfl, rfl⟩

/-- C7 (amended): every registration command with a previously-unused email
and username, a password of at least 8 characters and the dataclass-default
status PENDING succeeds, and the created account has status PENDING and
`email_verified = false`; when the command's provider is EMAIL (the
default) the account carries the single-use verification token with expiry
24 hours after creation, while for any other provider no token and no
expiry are set. -/
theorem c7_register_pending_with_token_iff_email_provider
    (s : Store) (now : Nat) (fid ftok : String) (cmd : CreateUserCommand) (p : String)
    (hem : exists_by_email s cmd.email = false)
    (hun : exists_by_username s cmd.username = false)
    (hst : cmd.user_status = .PENDING)
    (hpw : cmd.password = some p)
    (hplen : 8 ≤ p.length)
    (hftok : ftok ≠ "") :
    ∃ resp u, create_user s now fid ftok cmd = .ok (resp, save s u) ∧
      u.user_status = .PENDING ∧
      u.email_verified = false ∧
      u.password_hash = some (hashPassword p) ∧
      (cmd.auth_provider = .EMAIL →
        u.email_verification_token = some ftok ∧
        u.email_verification_expires = some (now + 24 * 3600)) ∧
      (cmd.auth_provider ≠ .EMAIL →
        u.email_verification_token = none ∧
        u.email_verification_expires = none) := by
  have hpne : p ≠ "" := by
    intro h
    rw [h] at hplen
    simp at hplen
  by_cases hap : cmd.auth_provider = .EMAIL
  · refine ⟨{ user_id := fid, email := cmd.email, username := cmd.username },
      (User.create fid cmd.email cmd.username
        (match cmd.password with
         | some q => if q = "" then none else some (hashPassword q)
         | none => none)
        cmd.first_name cmd.last_name cmd.nickname cmd.phone cmd.avatar_url cmd.bio
        cmd.auth_provider cmd.auth_provider_id cmd.user_role
        cmd.user_status).set_email_verification_token ftok (now + 24 * 3600),
      ?_, ?_, ?_, ?_, fun _ => ⟨?_, ?_⟩, fun hne => absurd hap hne⟩ <;>
      simp [create_user, hem, hun, hst, hap, hftok, hpw, hpne,
        User.create, User.set_email_verification_token]
  · refine ⟨{ user_id := fid, email := cmd.email, username := cmd.username },
      User.create fid cmd.email cmd.username
        (match cmd.password with
         | some q => if q = "" then none else some (hashPassword q)
         | none => none)
        cmd.first_name cmd.last_name cmd.nickname cmd.phone cmd.avatar_url cmd.bio
        cmd.auth_provider cmd.auth_provider_id cmd.user_role cmd.user_status,
      ?_, ?_, ?_, ?_, fun heq => absurd heq hap, fun _ => ⟨?_, ?_⟩⟩ <;>
      simp [create_user, hem, hun, hst, hap, hftok, hpw, hpne, User.create]

/-- C7 witness: a concrete EMAIL-provider registration on the empty store. -/
theorem c7_register_pending_with_token_iff_email_provider_witness :
    ∃ resp u, create_user [] 1000 "u4" "tok4"
        { email := "b@x.com", username := "bob", password := some "password123" } =
        .ok (resp, save [] u) ∧
      u.user_status = .PENDING ∧
      u.email_verified = false ∧
      u.password_hash = some (hashPassword "password123") ∧
      (({ email := "b@x.com", username := "bob",
          password := some "password123" } : CreateUserCommand).auth_provider = .EMAIL →
        u.email_verification_token = some "tok4" ∧
        u.email_verification_expires = some (1000 + 24 * 3600)) ∧
      (({ email := "b@x.com", username := "bob",
          password := some "password123" } : CreateUserCommand).auth_provider ≠ .EMAIL →
        u.email_verification_token = none ∧
        u.email_verification_expires = none) :=
  c7_register_pending_with_token_iff_email_provider [] 1000 "u4" "tok4"
    { email := "b@x.com", username := "bob", password := some "password123" }
    "password123" rfl rfl rfl rfl (by decide) (by decide)

end Metagate
